import Mathlib

set_option autoImplicit false

/-!
Shallow embedding of the JACK backend of rusty-daw-io
(`src/linux/jack_backend.rs`) and proofs about it.

Modelling conventions:

* The JACK server is an external collaborator.  Its state, as observed by a
  freshly opened client, is a `JackClient` (for discovery) or a `JackEnv`
  (for stream negotiation): the lists of system audio/MIDI ports of each
  direction, the fixed sample rate and buffer size, and (for spawning) which
  port-connection requests the server accepts.  An unreachable server is the
  `none` case of an `Option` around these.
* Samples are `Int` values standing in for `f32`: the callback only moves
  samples and writes literal zeros, it performs no floating-point arithmetic,
  so the carrier type is irrelevant to every claim.
* `Vec<f32>` is `SampleVec`, carrying the list of elements and the allocated
  capacity so that reallocation (growth past capacity) is observable.
* Logging (`log::warn!` etc.) is modelled by counting or returning flags for
  the diagnostics that the claims mention; `info!`/`debug!` calls with no
  observable effect are dropped.
* Fallible operations return `Except`; `jack::Error` is the small inductive
  `JackError` covering the constructors the source can actually produce here.
-/

/-- Name constants appearing literally in the source. -/
def systemCapture1 : String := "system:capture_1"

/-- Conventional first playback port name from the source. -/
def systemPlayback1 : String := "system:playback_1"

/-- Conventional second playback port name from the source. -/
def systemPlayback2 : String := "system:playback_2"

/-- Conventional second MIDI capture port name from the source. -/
def systemMidiCapture2 : String := "system:midi_capture_2"

/-- Default client name used by `spawn_rt_thread` when none is given. -/
def defaultClientName : String := "rusty-daw-io"

/-- Device name used for the single JACK device. -/
def jackDeviceName : String := "Jack Device"

/-- Server / system-device name string used throughout the backend. -/
def jackName : String := "Jack"

/-- State of a reachable JACK server as seen by a transient discovery client:
system ports by type and direction (audio-in = ports carrying the
`IS_OUTPUT` flag, i.e. capture sources, matching the source's queries),
plus the fixed sample rate and buffer size. -/
structure JackClient where
  audio_in_ports : List String
  audio_out_ports : List String
  midi_in_ports : List String
  midi_out_ports : List String
  sample_rate : Nat
  buffer_size : Nat
deriving DecidableEq

/-- Mirror of the crate's `BufferSizeRange`. -/
structure BufferSizeRange where
  min : Nat
  max : Nat
deriving DecidableEq

/-- Mirror of the crate's `AudioDeviceInfo` (the fields the backend fills in). -/
structure AudioDeviceInfo where
  name : String
  in_ports : List String
  out_ports : List String
  sample_rates : List Nat
  buffer_size_range : BufferSizeRange
  default_in_port : Nat
  default_out_port_left : Nat
  default_out_port_right : Nat
  default_sample_rate_index : Nat
  default_buffer_size : Nat
deriving DecidableEq

/-- Mirror of the crate's `AudioServerInfo` (the fields the backend touches). -/
structure AudioServerInfo where
  available : Bool
  devices : List AudioDeviceInfo
deriving DecidableEq

/-- Mirror of the crate's `MidiDeviceInfo`. -/
structure MidiDeviceInfo where
  name : String
deriving DecidableEq

/-- Mirror of the crate's `MidiServerInfo` (the fields the backend touches). -/
structure MidiServerInfo where
  available : Bool
  in_devices : List MidiDeviceInfo
  out_devices : List MidiDeviceInfo
  default_in_port : Nat
deriving DecidableEq

/-- Embedding of the source's default-port search loops: a mutable index
initialised to a fallback, overwritten by the position of the first port
whose name equals the target, with a `break` at the first match.  Returns
the index of the first match (offset by the start index `i`) or `none`. -/
def findPortIdx (target : String) : List String → Nat → Option Nat
  | [], _ => none
  | p :: rest, i => if p = target then some i else findPortIdx target rest (i + 1)

/-- Device record built by `refresh_audio_server` in the branch where the
server is reachable and has at least one audio output port
(`jack_backend.rs` lines 34-78). -/
def mkJackDevice (client : JackClient) : AudioDeviceInfo :=
  { name := jackDeviceName
    in_ports := client.audio_in_ports
    out_ports := client.audio_out_ports
    sample_rates := [client.sample_rate]
    buffer_size_range := { min := client.buffer_size, max := client.buffer_size }
    default_in_port := (findPortIdx systemCapture1 client.audio_in_ports 0).getD 0
    default_out_port_left := (findPortIdx systemPlayback1 client.audio_out_ports 0).getD 0
    default_out_port_right :=
      (findPortIdx systemPlayback2 client.audio_out_ports 0).getD
        (min 1 (client.audio_out_ports.length - 1))
    default_sample_rate_index := 0
    default_buffer_size := client.buffer_size }

/-- Embedding of `refresh_audio_server` (lines 9-89).  `conn` is the result of
`jack::Client::new`: `none` when the server is unreachable.  The function
always returns normally (total function); it never signals an error. -/
def refresh_audio_server (server : AudioServerInfo) (conn : Option JackClient) :
    AudioServerInfo :=
  let server := { server with devices := [] }
  match conn with
  | some client =>
    if client.audio_out_ports.length = 0 then
      { server with available := false }
    else
      { server with devices := [mkJackDevice client], available := true }
  | none => { server with available := false }

/-- Embedding of `refresh_midi_server` (lines 91-138).  Always returns
normally; on an unreachable server it only clears the device lists and the
availability flag. -/
def refresh_midi_server (server : MidiServerInfo) (conn : Option JackClient) :
    MidiServerInfo :=
  let server := { server with in_devices := [], out_devices := [] }
  match conn with
  | some client =>
    { server with
      in_devices := client.midi_in_ports.map (fun n => { name := n })
      out_devices := client.midi_out_ports.map (fun n => { name := n })
      default_in_port := (findPortIdx systemMidiCapture2 client.midi_in_ports 0).getD 0
      available := true }
  | none => { server with available := false }

/-- Spec-side helper for claim C8: the index (from the front) of the first
element equal to the target, written independently of the source's
loop-with-accumulator shape. -/
def firstIdxOfName (target : String) : List String → Option Nat
  | [] => none
  | p :: rest =>
    if p = target then some 0 else (firstIdxOfName target rest).map (fun j => j + 1)

/-- Spec-side definition for claim C8, following the spec's words only:
the default right output is the index of the first output port named as the
server's conventional second playback port, otherwise `min 1 (count - 1)`. -/
def defaultRightOutputSpec (out_ports : List String) : Nat :=
  match firstIdxOfName systemPlayback2 out_ports with
  | some i => i
  | none => min 1 (out_ports.length - 1)

lemma findPortIdx_eq_firstIdxOfName (target : String) :
    ∀ (l : List String) (i : Nat),
      findPortIdx target l i = (firstIdxOfName target l).map (fun j => j + i) := by
  intro l
  induction l with
  | nil => intro i; rfl
  | cons p rest ih =>
    intro i
    by_cases hp : p = target
    · simp [findPortIdx, firstIdxOfName, hp]
    · simp only [findPortIdx, firstIdxOfName, hp, if_false, ih]
      cases firstIdxOfName target rest with
      | none => rfl
      | some j =>
        show some (j + (i + 1)) = some (j + 1 + i)
        congr 1
        omega

/-- C6: with an unreachable server (connection attempt failed), audio and MIDI
discovery both report `available = false` with empty device lists, for any
prior contents of the info records; both functions are total and return
normally rather than signalling an error. -/
theorem discovery_unreachable_reports_unavailable
    (audio : AudioServerInfo) (midi : MidiServerInfo) :
    (refresh_audio_server audio none).available = false ∧
    (refresh_audio_server audio none).devices = [] ∧
    (refresh_midi_server midi none).available = false ∧
    (refresh_midi_server midi none).in_devices = [] ∧
    (refresh_midi_server midi none).out_devices = [] := by
  refine ⟨rfl, rfl, rfl, rfl, rfl⟩

/-- C7: audio discovery reports `available = true` iff the server is reachable
and exposes at least one output-capable audio port; for a reachable server
with zero outputs, `available` is `false` and no device is pushed, even if
input ports exist. -/
theorem audio_available_iff_outputs
    (server : AudioServerInfo) (conn : Option JackClient) :
    ((refresh_audio_server server conn).available = true ↔
      ∃ client, conn = some client ∧ client.audio_out_ports ≠ []) ∧
    (∀ client, conn = some client → client.audio_out_ports = [] →
      (refresh_audio_server server conn).available = false ∧
      (refresh_audio_server server conn).devices = []) := by
  constructor
  · cases conn with
    | none => simp [refresh_audio_server]
    | some client =>
      by_cases h : client.audio_out_ports.length = 0
      · have hnil : client.audio_out_ports = [] := List.length_eq_zero.mp h
        simp [refresh_audio_server, h, hnil]
      · have hne : client.audio_out_ports ≠ [] := by
          intro hc
          exact h (by simp [hc])
        simp [refresh_audio_server, h, hne]
  · intro client hconn hnil
    subst hconn
    have h : client.audio_out_ports.length = 0 := by simp [hnil]
    constructor
    · simp [refresh_audio_server, h]
    · simp [refresh_audio_server, h]

/-- Concrete reachable server with one capture port and no playback ports. -/
def noOutputClient : JackClient :=
  { audio_in_ports := [systemCapture1]
    audio_out_ports := []
    midi_in_ports := []
    midi_out_ports := []
    sample_rate := 48000
    buffer_size := 512 }

/-- Concrete prior contents of an audio-server info record. -/
def staleAudioInfo : AudioServerInfo :=
  { available := true, devices := [] }

/-- Witness for C7 at a concrete reachable server with inputs but no outputs. -/
theorem audio_available_iff_outputs_witness :
    (refresh_audio_server staleAudioInfo (some noOutputClient)).available = false ∧
    (refresh_audio_server staleAudioInfo (some noOutputClient)).devices = [] :=
  (audio_available_iff_outputs staleAudioInfo (some noOutputClient)).2 _ rfl rfl

/-- C8: the default right-output index chosen by audio discovery equals the
spec's description (first port named as the conventional second playback
port, else `min 1 (count - 1)`), and for a device with exactly one output
port both default output indices are `0`. -/
theorem default_right_output_selection
    (server : AudioServerInfo) (client : JackClient)
    (h : client.audio_out_ports ≠ []) :
    (refresh_audio_server server (some client)).devices = [mkJackDevice client] ∧
    (mkJackDevice client).default_out_port_right
      = defaultRightOutputSpec client.audio_out_ports ∧
    (client.audio_out_ports.length = 1 →
      (mkJackDevice client).default_out_port_left = 0 ∧
      (mkJackDevice client).default_out_port_right = 0) := by
  have hlen : client.audio_out_ports.length ≠ 0 := by
    intro hc
    exact h (List.length_eq_zero.mp hc)
  refine ⟨by simp [refresh_audio_server, hlen], ?_, ?_⟩
  · show (findPortIdx systemPlayback2 client.audio_out_ports 0).getD
        (min 1 (client.audio_out_ports.length - 1))
      = defaultRightOutputSpec client.audio_out_ports
    rw [findPortIdx_eq_firstIdxOfName]
    unfold defaultRightOutputSpec
    cases firstIdxOfName systemPlayback2 client.audio_out_ports with
    | none => rfl
    | some j => simp
  · intro h1
    obtain ⟨a, ha⟩ : ∃ a, client.audio_out_ports = [a] := by
      cases hl : client.audio_out_ports with
      | nil => exact absurd hl h
      | cons a rest =>
        refine ⟨a, ?_⟩
        have : rest.length = 0 := by
          rw [hl] at h1
          simpa using h1
        simp [List.length_eq_zero.mp this]
    constructor
    · show (findPortIdx systemPlayback1 client.audio_out_ports 0).getD 0 = 0
      rw [ha]
      by_cases hp : a = systemPlayback1 <;> simp [findPortIdx, hp]
    · show (findPortIdx systemPlayback2 client.audio_out_ports 0).getD
          (min 1 (client.audio_out_ports.length - 1)) = 0
      rw [ha]
      by_cases hp : a = systemPlayback2 <;> simp [findPortIdx, hp]

/-- Concrete reachable server with a single, unconventionally named playback
port. -/
def monoClient : JackClient :=
  { audio_in_ports := []
    audio_out_ports := ["hw:mono_out"]
    midi_in_ports := []
    midi_out_ports := []
    sample_rate := 48000
    buffer_size := 512 }

/-- Concrete empty audio-server info record. -/
def emptyAudioInfo : AudioServerInfo :=
  { available := false, devices := [] }

/-- Witness for C8 at a concrete single-output device without conventional
port names. -/
theorem default_right_output_selection_witness :
    monoClient.audio_out_ports ≠ [] ∧
    (mkJackDevice monoClient).default_out_port_left = 0 ∧
    (mkJackDevice monoClient).default_out_port_right = 0 :=
  ⟨by decide,
    (default_right_output_selection emptyAudioInfo monoClient (by decide)).2.2 (by decide)⟩

/-!
Stream negotiation: embedding of `spawn_rt_thread` (lines 140-368).

The reachable server's state during a spawn is a `JackEnv`; `conn = none`
models a failed `jack::Client::new`.  Port registration by the server is
modelled as always succeeding (a registration refused by the server would be
a `PlatformSpecific` error outside the configuration-validation logic under
study); `port.name()` of a registered client port is the client name, a
colon, and the short port name, as JACK names client ports.  On an `Err`
return the `jack::Client` / `AsyncClient` owning every registered port is
dropped before `spawn_rt_thread` returns, which closes the client and
unregisters all its ports; `registeredPortsAfter` makes that observable
state explicit.
-/

/-- Errors of the external jack library that this backend can hit. -/
inductive JackError where
  | clientOpenFailed : JackError
  | connectFailed (source : String) (destination : String) : JackError
deriving DecidableEq

/-- Mirror of the crate's `SpawnRtThreadError` (the variants this file uses). -/
inductive SpawnRtThreadError where
  | NoSystemPortsGiven (busId : String) : SpawnRtThreadError
  | SystemPortNotFound (portId : String) (busId : String) : SpawnRtThreadError
  | PlatformSpecific (e : JackError) : SpawnRtThreadError
deriving DecidableEq

/-- Configuration errors are the two validation variants; `PlatformSpecific`
wraps errors of the server itself. -/
def SpawnRtThreadError.isConfigError : SpawnRtThreadError → Bool
  | .NoSystemPortsGiven _ => true
  | .SystemPortNotFound _ _ => true
  | .PlatformSpecific _ => false

/-- Mirror of the crate's per-bus configuration entry. -/
structure AudioBusConfig where
  id : String
  system_ports : List String
deriving DecidableEq

/-- Mirror of the crate's per-controller configuration entry. -/
structure MidiControllerConfig where
  id : String
  system_port : String
deriving DecidableEq

/-- Mirror of the crate's `Config` (the fields `spawn_rt_thread` reads). -/
structure Config where
  audio_in_busses : List AudioBusConfig
  audio_out_busses : List AudioBusConfig
  midi_in_controllers : List MidiControllerConfig
  midi_out_controllers : List MidiControllerConfig
  midi_server : Option String
deriving DecidableEq

/-- Mirror of the crate's `AudioBus`.  `channels` is a `u16` in the source,
assigned as `bus.system_ports.len() as u16`, so the stored value is the
length reduced modulo `2 ^ 16`. -/
structure AudioBus where
  id_name : String
  id_index : Nat
  system_device : String
  system_half_duplex_device : Option String
  system_ports : List String
  channels : Nat
deriving DecidableEq

/-- Mirror of the crate's `MidiController`. -/
structure MidiController where
  id_name : String
  id_index : Nat
  system_port : String
deriving DecidableEq

/-- Mirror of the crate's `StreamInfo`. -/
structure StreamInfo where
  server_name : String
  audio_in : List AudioBus
  audio_out : List AudioBus
  midi_in : List MidiController
  midi_out : List MidiController
  sample_rate : Nat
  max_audio_buffer_size : Nat
deriving DecidableEq

/-- State of the reachable JACK server during a spawn: the enumerated system
audio ports of each direction, the fixed sample rate and buffer size, and
which named-port connection requests the server accepts. -/
structure JackEnv where
  system_audio_in_ports : List String
  system_audio_out_ports : List String
  sample_rate : Nat
  buffer_size : Nat
  connect_ok : String → String → Bool

/-- Embedding of the inner per-port loop of the bus-registration loops
(lines 191-205 and 226-240): validate each listed system port against the
enumerated catalog in order, register one client port per listed system port
named from the bus name and the 1-based position, and record the client
port's full name next to the system port it is to be connected to. -/
def registerBusPorts (client_name : String) (bus_id : String) (catalog : List String) :
    List String → Nat → Except SpawnRtThreadError (List String × List String)
  | [], _ => .ok ([], [])
  | system_port :: rest, i =>
    if catalog.contains system_port then
      match registerBusPorts client_name bus_id catalog rest (i + 1) with
      | .ok (names, conns) =>
        .ok ((client_name ++ ":" ++ bus_id ++ "_" ++ toString (i + 1)) :: names,
             system_port :: conns)
      | .error e => .error e
    else
      .error (.SystemPortNotFound system_port bus_id)

/-- Embedding of one direction's bus-registration loop (lines 177-206 for
inputs, lines 212-241 for outputs; the two loops are textually identical up
to the catalog and port direction).  Returns the built `AudioBus` list, the
registered client port names and the system ports they are to be connected
to, or the first validation error. -/
def registerBusses (client_name : String) (catalog : List String) :
    List AudioBusConfig → Nat →
    Except SpawnRtThreadError (List AudioBus × List String × List String)
  | [], _ => .ok ([], [], [])
  | bus :: rest, bus_i =>
    if bus.system_ports.length = 0 then
      .error (.NoSystemPortsGiven bus.id)
    else
      match registerBusPorts client_name bus.id catalog bus.system_ports 0 with
      | .error e => .error e
      | .ok (names, conns) =>
        match registerBusses client_name catalog rest (bus_i + 1) with
        | .error e => .error e
        | .ok (busses, names2, conns2) =>
          .ok ({ id_name := bus.id
                 id_index := bus_i
                 system_device := jackName
                 system_half_duplex_device := none
                 system_ports := bus.system_ports
                 channels := bus.system_ports.length % 65536 } :: busses,
               names ++ names2, conns ++ conns2)

/-- Embedding of one direction's MIDI-controller registration loop
(lines 255-269 and 271-285): one client port per controller, named after the
controller; the configured system port is not validated. -/
def registerControllers (client_name : String) :
    List MidiControllerConfig → Nat →
    List MidiController × List String × List String
  | [], _ => ([], [], [])
  | controller :: rest, controller_i =>
    let (ctls, names, conns) := registerControllers client_name rest (controller_i + 1)
    ({ id_name := controller.id
       id_index := controller_i
       system_port := controller.system_port } :: ctls,
     (client_name ++ ":" ++ controller.id) :: names,
     controller.system_port :: conns)

/-- Everything registered before activation: buses, controllers, client port
names and the system ports each is to be auto-connected to. -/
structure Negotiated where
  audio_in_busses : List AudioBus
  audio_in_port_names : List String
  audio_in_connected_port_names : List String
  audio_out_busses : List AudioBus
  audio_out_port_names : List String
  audio_out_connected_port_names : List String
  midi_in_controllers : List MidiController
  midi_in_port_names : List String
  midi_in_connected_port_names : List String
  midi_out_controllers : List MidiController
  midi_out_port_names : List String
  midi_out_connected_port_names : List String
deriving DecidableEq

/-- Registration part of `spawn_rt_thread` (lines 158-287): validate and
register audio buses of both directions, then MIDI controllers when the
configured MIDI server identity is this backend. -/
def negotiate (client_name : String) (env : JackEnv) (config : Config) :
    Except SpawnRtThreadError Negotiated :=
  match registerBusses client_name env.system_audio_in_ports config.audio_in_busses 0 with
  | .error e => .error e
  | .ok (inBusses, inNames, inConns) =>
    match registerBusses client_name env.system_audio_out_ports config.audio_out_busses 0 with
    | .error e => .error e
    | .ok (outBusses, outNames, outConns) =>
      let midiGate : Bool :=
        match config.midi_server with
        | some s => s = jackName
        | none => false
      let (midiInCtls, midiInNames, midiInConns) :=
        if midiGate then registerControllers client_name config.midi_in_controllers 0
        else ([], [], [])
      let (midiOutCtls, midiOutNames, midiOutConns) :=
        if midiGate then registerControllers client_name config.midi_out_controllers 0
        else ([], [], [])
      .ok { audio_in_busses := inBusses
            audio_in_port_names := inNames
            audio_in_connected_port_names := inConns
            audio_out_busses := outBusses
            audio_out_port_names := outNames
            audio_out_connected_port_names := outConns
            midi_in_controllers := midiInCtls
            midi_in_port_names := midiInNames
            midi_in_connected_port_names := midiInConns
            midi_out_controllers := midiOutCtls
            midi_out_port_names := midiOutNames
            midi_out_connected_port_names := midiOutConns }

/-- The `StreamInfo` built at lines 292-300. -/
def Negotiated.streamInfo (n : Negotiated) (env : JackEnv) : StreamInfo :=
  { server_name := jackName
    audio_in := n.audio_in_busses
    audio_out := n.audio_out_busses
    midi_in := n.midi_in_controllers
    midi_out := n.midi_out_controllers
    sample_rate := env.sample_rate
    max_audio_buffer_size := env.buffer_size }

/-- The auto-connection requests issued after activation (lines 326-355), in
source order: audio inputs (system port to client port), audio outputs
(client port to system port), MIDI inputs, MIDI outputs.  Each list is a
`zip` of the client port names with the recorded system ports, as in the
source. -/
def connectPairs (n : Negotiated) : List (String × String) :=
  (n.audio_in_port_names.zip n.audio_in_connected_port_names).map (fun p => (p.2, p.1))
    ++ n.audio_out_port_names.zip n.audio_out_connected_port_names
    ++ (n.midi_in_port_names.zip n.midi_in_connected_port_names).map (fun p => (p.2, p.1))
    ++ n.midi_out_port_names.zip n.midi_out_connected_port_names

/-- Sequential connection attempts with the source's `?` operator: the first
failure aborts the sequence and is propagated as a `PlatformSpecific`
error. -/
def connectSeq (env : JackEnv) : List (String × String) → Except SpawnRtThreadError Unit
  | [] => .ok ()
  | (src, dst) :: rest =>
    if env.connect_ok src dst then connectSeq env rest
    else .error (.PlatformSpecific (.connectFailed src dst))

/-- Successful result of `spawn_rt_thread`: the `StreamInfo` handed to the
caller plus the client ports registered on the server (owned by the
returned stream handle). -/
structure SpawnOk where
  stream_info : StreamInfo
  audio_in_port_names : List String
  audio_out_port_names : List String
  midi_in_port_names : List String
  midi_out_port_names : List String
deriving DecidableEq

/-- Embedding of `spawn_rt_thread` (lines 144-368): open the client (`conn`
is `none` when `jack::Client::new` fails), validate and register everything,
build the `StreamInfo`, activate (modelled as succeeding), then auto-connect
every client port; every step uses the source's `?` operator, so the first
error aborts and is returned. -/
def spawn_rt_thread (conn : Option JackEnv) (config : Config)
    (use_client_name : Option String) : Except SpawnRtThreadError SpawnOk :=
  match conn with
  | none => .error (.PlatformSpecific .clientOpenFailed)
  | some env =>
    let client_name := use_client_name.getD defaultClientName
    match negotiate client_name env config with
    | .error e => .error e
    | .ok n =>
      match connectSeq env (connectPairs n) with
      | .error e => .error e
      | .ok _ =>
        .ok { stream_info := n.streamInfo env
              audio_in_port_names := n.audio_in_port_names
              audio_out_port_names := n.audio_out_port_names
              midi_in_port_names := n.midi_in_port_names
              midi_out_port_names := n.midi_out_port_names }

/-- Client ports still registered on the server after `spawn_rt_thread`
returns: on success the ports owned by the returned handle; on an error the
client was dropped during unwinding, which unregisters every port it had
registered, leaving none. -/
def registeredPortsAfter : Except SpawnRtThreadError SpawnOk → List String
  | .ok r => r.audio_in_port_names ++ r.audio_out_port_names
      ++ r.midi_in_port_names ++ r.midi_out_port_names
  | .error _ => []

/-- First reason a single bus fails validation, if any: emptiness, else its
first system port missing from the catalog. -/
def busOffense (catalog : List String) (bus : AudioBusConfig) : Option SpawnRtThreadError :=
  if bus.system_ports.length = 0 then some (.NoSystemPortsGiven bus.id)
  else
    (bus.system_ports.find? (fun p => ! catalog.contains p)).map
      (fun p => .SystemPortNotFound p bus.id)

/-- First validation failure of a configuration in the order the source
checks: input buses (in configuration order) before output buses, each bus
checked for emptiness before its ports are checked in list order. -/
def firstOffense (env : JackEnv) (config : Config) : Option SpawnRtThreadError :=
  match config.audio_in_busses.findSome? (busOffense env.system_audio_in_ports) with
  | some e => some e
  | none => config.audio_out_busses.findSome? (busOffense env.system_audio_out_ports)

lemma registerBusPorts_error_of_find (client_name bus_id : String) (catalog : List String) :
    ∀ (ports : List String) (i : Nat) (p : String),
      ports.find? (fun q => ! catalog.contains q) = some p →
      registerBusPorts client_name bus_id catalog ports i
        = .error (.SystemPortNotFound p bus_id) := by
  intro ports
  induction ports with
  | nil => intro i p h; simp at h
  | cons q rest ih =>
    intro i p h
    by_cases hq : q ∈ catalog
    · rw [List.find?_cons_of_neg _ (by simp [hq])] at h
      simp [registerBusPorts, hq, ih (i + 1) p h]
    · rw [List.find?_cons_of_pos _ (by simp [hq])] at h
      cases h
      simp [registerBusPorts, hq]

lemma registerBusPorts_ok_of_find_none (client_name bus_id : String) (catalog : List String) :
    ∀ (ports : List String) (i : Nat),
      ports.find? (fun q => ! catalog.contains q) = none →
      ∃ names, registerBusPorts client_name bus_id catalog ports i = .ok (names, ports) := by
  intro ports
  induction ports with
  | nil => intro i _; exact ⟨[], rfl⟩
  | cons q rest ih =>
    intro i h
    rw [List.find?_eq_none] at h
    have hq : q ∈ catalog := by
      have := h q (by simp)
      simpa using this
    have hrest : rest.find? (fun r => ! catalog.contains r) = none := by
      rw [List.find?_eq_none]
      intro x hx
      exact h x (by simp [hx])
    obtain ⟨names, hrec⟩ := ih (i + 1) hrest
    exact ⟨(client_name ++ ":" ++ bus_id ++ "_" ++ toString (i + 1)) :: names,
      by simp [registerBusPorts, hq, hrec]⟩

lemma registerBusPorts_ok_elim (client_name bus_id : String) (catalog : List String) :
    ∀ (ports : List String) (i : Nat) (names conns : List String),
      registerBusPorts client_name bus_id catalog ports i = .ok (names, conns) →
      names.length = ports.length ∧ conns = ports := by
  intro ports
  induction ports with
  | nil =>
    intro i names conns h
    simp only [registerBusPorts] at h
    cases h
    exact ⟨rfl, rfl⟩
  | cons q rest ih =>
    intro i names conns h
    by_cases hq : catalog.contains q
    · simp only [registerBusPorts, hq, if_true] at h
      cases hrec : registerBusPorts client_name bus_id catalog rest (i + 1) with
      | ok pair =>
        rw [hrec] at h
        cases pair with
        | mk ns cs =>
          cases h
          obtain ⟨h1, h2⟩ := ih (i + 1) ns cs hrec
          constructor
          · simp [h1]
          · simp [h2]
      | error e => rw [hrec] at h; cases h
    · simp only [registerBusPorts, hq, if_false] at h
      cases h

lemma registerBusses_error_of_findSome (client_name : String) (catalog : List String) :
    ∀ (busses : List AudioBusConfig) (k : Nat) (e : SpawnRtThreadError),
      busses.findSome? (busOffense catalog) = some e →
      registerBusses client_name catalog busses k = .error e := by
  intro busses
  induction busses with
  | nil => intro k e h; simp at h
  | cons bus rest ih =>
    intro k e h
    cases ho : busOffense catalog bus with
    | none =>
      rw [List.findSome?_cons_of_isNone _ (by simp [ho])] at h
      unfold busOffense at ho
      by_cases hl : bus.system_ports.length = 0
      · rw [if_pos hl] at ho; cases ho
      · rw [if_neg hl] at ho
        cases hf : bus.system_ports.find? (fun p => ! catalog.contains p) with
        | some p => rw [hf] at ho; simp at ho
        | none =>
          obtain ⟨names, hok⟩ :=
            registerBusPorts_ok_of_find_none client_name bus.id catalog bus.system_ports 0 hf
          simp [registerBusses, hl, hok, ih (k + 1) e h]
    | some e1 =>
      rw [List.findSome?_cons_of_isSome _ (by simp [ho]), ho] at h
      cases h
      unfold busOffense at ho
      by_cases hl : bus.system_ports.length = 0
      · rw [if_pos hl] at ho
        cases ho
        simp [registerBusses, hl]
      · rw [if_neg hl] at ho
        cases hf : bus.system_ports.find? (fun p => ! catalog.contains p) with
        | none => rw [hf] at ho; cases ho
        | some p =>
          rw [hf] at ho
          cases ho
          have herr := registerBusPorts_error_of_find client_name bus.id catalog
            bus.system_ports 0 p hf
          simp [registerBusses, hl, herr]

lemma registerBusses_ok_of_findSome_none (client_name : String) (catalog : List String) :
    ∀ (busses : List AudioBusConfig) (k : Nat),
      busses.findSome? (busOffense catalog) = none →
      ∃ out, registerBusses client_name catalog busses k = .ok out := by
  intro busses
  induction busses with
  | nil => intro k _; exact ⟨([], [], []), rfl⟩
  | cons bus rest ih =>
    intro k h
    rw [List.findSome?_eq_none_iff] at h
    have ho : busOffense catalog bus = none := h bus (by simp)
    have hrest : rest.findSome? (busOffense catalog) = none := by
      rw [List.findSome?_eq_none_iff]
      intro x hx
      exact h x (by simp [hx])
    unfold busOffense at ho
    by_cases hl : bus.system_ports.length = 0
    · rw [if_pos hl] at ho; cases ho
    · rw [if_neg hl] at ho
      cases hf : bus.system_ports.find? (fun p => ! catalog.contains p) with
      | some p => rw [hf] at ho; simp at ho
      | none =>
        obtain ⟨names, hok⟩ :=
          registerBusPorts_ok_of_find_none client_name bus.id catalog bus.system_ports 0 hf
        obtain ⟨⟨bl, ns2, cs2⟩, hrec⟩ := ih (k + 1) hrest
        refine ⟨({ id_name := bus.id
                   id_index := k
                   system_device := jackName
                   system_half_duplex_device := none
                   system_ports := bus.system_ports
                   channels := bus.system_ports.length % 65536 } :: bl,
                 names ++ ns2, bus.system_ports ++ cs2), ?_⟩
        simp only [registerBusses]
        rw [if_neg hl, hok, hrec]

lemma busOffense_isConfigError (catalog : List String) (bus : AudioBusConfig)
    (e : SpawnRtThreadError) (h : busOffense catalog bus = some e) :
    e.isConfigError = true := by
  unfold busOffense at h
  by_cases hl : bus.system_ports.length = 0
  · rw [if_pos hl] at h
    cases h
    rfl
  · rw [if_neg hl] at h
    cases hf : bus.system_ports.find? (fun p => ! catalog.contains p) with
    | none => rw [hf] at h; cases h
    | some p =>
      rw [hf] at h
      cases h
      rfl

lemma firstOffense_isConfigError (env : JackEnv) (config : Config)
    (e : SpawnRtThreadError) (h : firstOffense env config = some e) :
    e.isConfigError = true := by
  unfold firstOffense at h
  cases hin : config.audio_in_busses.findSome? (busOffense env.system_audio_in_ports) with
  | some e1 =>
    rw [hin] at h
    cases h
    obtain ⟨l1, a, l2, _, ha, _⟩ := List.findSome?_eq_some_iff.mp hin
    exact busOffense_isConfigError _ a _ ha
  | none =>
    rw [hin] at h
    obtain ⟨l1, a, l2, _, ha, _⟩ := List.findSome?_eq_some_iff.mp h
    exact busOffense_isConfigError _ a _ ha

lemma negotiate_error_of_firstOffense (client_name : String) (env : JackEnv)
    (config : Config) (e : SpawnRtThreadError) (h : firstOffense env config = some e) :
    negotiate client_name env config = .error e := by
  unfold firstOffense at h
  cases hin : config.audio_in_busses.findSome? (busOffense env.system_audio_in_ports) with
  | some e1 =>
    rw [hin] at h
    cases h
    have herr := registerBusses_error_of_findSome client_name env.system_audio_in_ports
      config.audio_in_busses 0 e hin
    simp [negotiate, herr]
  | none =>
    rw [hin] at h
    obtain ⟨⟨bl, ns, cs⟩, hok⟩ := registerBusses_ok_of_findSome_none client_name
      env.system_audio_in_ports config.audio_in_busses 0 hin
    have herr := registerBusses_error_of_findSome client_name env.system_audio_out_ports
      config.audio_out_busses 0 e h
    simp [negotiate, hok, herr]

lemma spawn_error_of_firstOffense (env : JackEnv) (config : Config) (ucn : Option String)
    (e : SpawnRtThreadError) (h : firstOffense env config = some e) :
    spawn_rt_thread (some env) config ucn = .error e := by
  have hneg := negotiate_error_of_firstOffense (ucn.getD defaultClientName) env config e h
  simp [spawn_rt_thread, hneg]

/-- C4 (amended): any configuration containing an audio bus (input or output)
with an empty system-port list makes `spawn_rt_thread` fail with a
configuration error — namely the first validation failure in the order the
source checks (input buses then output buses; emptiness before unknown
ports), which is `NoSystemPortsGiven` naming that bus whenever that bus is
the first offender — and afterwards no client ports remain registered on
the server. -/
theorem spawn_empty_bus_fails (env : JackEnv) (config : Config) (ucn : Option String)
    (b : AudioBusConfig)
    (hb : b ∈ config.audio_in_busses ++ config.audio_out_busses)
    (hempty : b.system_ports = []) :
    ∃ e, firstOffense env config = some e ∧
      spawn_rt_thread (some env) config ucn = .error e ∧
      e.isConfigError = true ∧
      registeredPortsAfter (spawn_rt_thread (some env) config ucn) = [] := by
  have hoff : ∀ catalog, busOffense catalog b = some (.NoSystemPortsGiven b.id) := by
    intro catalog
    unfold busOffense
    rw [if_pos (by simp [hempty])]
  cases hfo : firstOffense env config with
  | some e =>
    refine ⟨e, rfl, spawn_error_of_firstOffense env config ucn e hfo,
      firstOffense_isConfigError env config e hfo, ?_⟩
    rw [spawn_error_of_firstOffense env config ucn e hfo]
    rfl
  | none =>
    exfalso
    unfold firstOffense at hfo
    cases hin : config.audio_in_busses.findSome? (busOffense env.system_audio_in_ports) with
    | some e1 => rw [hin] at hfo; cases hfo
    | none =>
      rw [hin] at hfo
      rw [List.findSome?_eq_none_iff] at hin hfo
      rcases List.mem_append.mp hb with hmem | hmem
      · exact absurd (hin b hmem) (by simp [hoff])
      · exact absurd (hfo b hmem) (by simp [hoff])

/-- Concrete empty input bus for the C4 witness. -/
def emptyBusC4 : AudioBusConfig := { id := "mic", system_ports := [] }

/-- Concrete configuration whose only bus is empty. -/
def cfgC4w : Config :=
  { audio_in_busses := [emptyBusC4]
    audio_out_busses := []
    midi_in_controllers := []
    midi_out_controllers := []
    midi_server := none }

/-- Concrete reachable server for the C4 witness. -/
def envC4 : JackEnv :=
  { system_audio_in_ports := []
    system_audio_out_ports := []
    sample_rate := 48000
    buffer_size := 512
    connect_ok := fun _ _ => true }

/-- Witness for C4 at a concrete configuration with one empty input bus. -/
theorem spawn_empty_bus_fails_witness :
    (emptyBusC4 ∈ cfgC4w.audio_in_busses ++ cfgC4w.audio_out_busses ∧
      emptyBusC4.system_ports = []) ∧
    (∃ e, firstOffense envC4 cfgC4w = some e ∧
      spawn_rt_thread (some envC4) cfgC4w none = .error e ∧
      e.isConfigError = true ∧
      registeredPortsAfter (spawn_rt_thread (some envC4) cfgC4w none) = []) :=
  ⟨⟨by decide, rfl⟩, spawn_empty_bus_fails envC4 cfgC4w none emptyBusC4 (by decide) rfl⟩

/-- Input bus listing an unknown system port, placed before the empty bus. -/
def unknownBusC4c : AudioBusConfig := { id := "a", system_ports := ["nope"] }

/-- Empty input bus placed second in the C4 counterexample configuration. -/
def emptyBusC4c : AudioBusConfig := { id := "b", system_ports := [] }

/-- Configuration containing both an unknown-port bus and an empty bus. -/
def cfgC4c : Config :=
  { audio_in_busses := [unknownBusC4c, emptyBusC4c]
    audio_out_busses := []
    midi_in_controllers := []
    midi_out_controllers := []
    midi_server := none }

/-- Concrete reachable server (with no system ports) for the C4
counterexample. -/
def envC4c : JackEnv :=
  { system_audio_in_ports := []
    system_audio_out_ports := []
    sample_rate := 48000
    buffer_size := 512
    connect_ok := fun _ _ => true }

/-- Counterexample to C4 as stated: this configuration contains an audio bus
with an empty system-port list (bus `b`), yet the spawn error is
`SystemPortNotFound` naming bus `a`, not a configuration error identifying
the empty bus `b` by name. -/
theorem spawn_empty_bus_cex :
    emptyBusC4c ∈ cfgC4c.audio_in_busses ++ cfgC4c.audio_out_busses ∧
    emptyBusC4c.system_ports = [] ∧
    spawn_rt_thread (some envC4c) cfgC4c none
      = .error (.SystemPortNotFound ("nope") ("a")) ∧
    SpawnRtThreadError.SystemPortNotFound ("nope") ("a")
      ≠ .NoSystemPortsGiven emptyBusC4c.id := by
  refine ⟨by decide, rfl, rfl, by decide⟩

/-- C5 (amended): any configuration containing an audio bus that lists a
system port absent from the enumerated catalog of its direction makes
`spawn_rt_thread` fail with a configuration error — namely the first
validation failure in the order the source checks, which is
`SystemPortNotFound` naming that port and bus whenever that bus is the
first offender — and afterwards no client ports remain registered on the
server. -/
theorem spawn_unknown_port_fails (env : JackEnv) (config : Config) (ucn : Option String)
    (b : AudioBusConfig) (p : String)
    (hb : (b ∈ config.audio_in_busses ∧ p ∈ b.system_ports ∧
            p ∉ env.system_audio_in_ports)
        ∨ (b ∈ config.audio_out_busses ∧ p ∈ b.system_ports ∧
            p ∉ env.system_audio_out_ports)) :
    ∃ e, firstOffense env config = some e ∧
      spawn_rt_thread (some env) config ucn = .error e ∧
      e.isConfigError = true ∧
      registeredPortsAfter (spawn_rt_thread (some env) config ucn) = [] := by
  have hoff : ∀ (catalog : List String), p ∈ b.system_ports → p ∉ catalog →
      busOffense catalog b ≠ none := by
    intro catalog hp hpc hno
    unfold busOffense at hno
    rw [if_neg (by
      intro hzero
      have hnil : b.system_ports = [] := List.length_eq_zero.mp hzero
      rw [hnil] at hp
      exact absurd hp (List.not_mem_nil p))] at hno
    cases hf : b.system_ports.find? (fun q => ! catalog.contains q) with
    | some q => rw [hf] at hno; simp at hno
    | none =>
      rw [List.find?_eq_none] at hf
      have := hf p hp
      simp [hpc] at this
  cases hfo : firstOffense env config with
  | some e =>
    refine ⟨e, rfl, spawn_error_of_firstOffense env config ucn e hfo,
      firstOffense_isConfigError env config e hfo, ?_⟩
    rw [spawn_error_of_firstOffense env config ucn e hfo]
    rfl
  | none =>
    exfalso
    unfold firstOffense at hfo
    cases hin : config.audio_in_busses.findSome? (busOffense env.system_audio_in_ports) with
    | some e1 => rw [hin] at hfo; cases hfo
    | none =>
      rw [hin] at hfo
      rw [List.findSome?_eq_none_iff] at hin hfo
      rcases hb with ⟨hmem, hp, hpc⟩ | ⟨hmem, hp, hpc⟩
      · exact hoff _ hp hpc (hin b hmem)
      · exact hoff _ hp hpc (hfo b hmem)

/-- Concrete input bus listing a system port absent from the catalog. -/
def ghostBusC5 : AudioBusConfig := { id := "mic", system_ports := ["ghost"] }

/-- Concrete configuration for the C5 witness. -/
def cfgC5w : Config :=
  { audio_in_busses := [ghostBusC5]
    audio_out_busses := []
    midi_in_controllers := []
    midi_out_controllers := []
    midi_server := none }

/-- Concrete reachable server for the C5 witness. -/
def envC5 : JackEnv :=
  { system_audio_in_ports := [systemCapture1]
    system_audio_out_ports := []
    sample_rate := 48000
    buffer_size := 512
    connect_ok := fun _ _ => true }

/-- Witness for C5 at a concrete configuration referencing a missing port. -/
theorem spawn_unknown_port_fails_witness :
    (ghostBusC5 ∈ cfgC5w.audio_in_busses ∧ ("ghost" : String) ∈ ghostBusC5.system_ports ∧
      ("ghost" : String) ∉ envC5.system_audio_in_ports) ∧
    (∃ e, firstOffense envC5 cfgC5w = some e ∧
      spawn_rt_thread (some envC5) cfgC5w none = .error e ∧
      e.isConfigError = true ∧
      registeredPortsAfter (spawn_rt_thread (some envC5) cfgC5w none) = []) :=
  ⟨⟨by decide, by decide, by decide⟩,
    spawn_unknown_port_fails envC5 cfgC5w none ghostBusC5 ("ghost")
      (Or.inl ⟨by decide, by decide, by decide⟩)⟩

/-- Empty input bus placed first in the C5 counterexample configuration. -/
def emptyBusC5c : AudioBusConfig := { id := "a", system_ports := [] }

/-- Input bus listing an unknown system port, placed after the empty bus. -/
def ghostBusC5c : AudioBusConfig := { id := "b", system_ports := ["ghost"] }

/-- Configuration containing both an empty bus and an unknown-port bus. -/
def cfgC5c : Config :=
  { audio_in_busses := [emptyBusC5c, ghostBusC5c]
    audio_out_busses := []
    midi_in_controllers := []
    midi_out_controllers := []
    midi_server := none }

/-- Concrete reachable server (with no system ports) for the C5
counterexample. -/
def envC5c : JackEnv :=
  { system_audio_in_ports := []
    system_audio_out_ports := []
    sample_rate := 48000
    buffer_size := 512
    connect_ok := fun _ _ => true }

/-- Counterexample to C5 as stated: this configuration contains a bus (`b`)
referencing a system port absent from the enumerated catalog, yet the spawn
error is `NoSystemPortsGiven` naming bus `a` — it identifies neither the
offending port nor the bus that references it. -/
theorem spawn_unknown_port_cex :
    ghostBusC5c ∈ cfgC5c.audio_in_busses ++ cfgC5c.audio_out_busses ∧
    ("ghost" : String) ∈ ghostBusC5c.system_ports ∧
    ("ghost" : String) ∉ envC5c.system_audio_in_ports ∧
    spawn_rt_thread (some envC5c) cfgC5c none = .error (.NoSystemPortsGiven ("a")) ∧
    SpawnRtThreadError.NoSystemPortsGiven ("a")
      ≠ .SystemPortNotFound ("ghost") ghostBusC5c.id := by
  refine ⟨by decide, by decide, by decide, rfl, by decide⟩

lemma connectSeq_error_elim (env : JackEnv) :
    ∀ (pairs : List (String × String)) (e : SpawnRtThreadError),
      connectSeq env pairs = .error e →
      ∃ src dst, e = .PlatformSpecific (.connectFailed src dst) ∧
        env.connect_ok src dst = false ∧ (src, dst) ∈ pairs := by
  intro pairs
  induction pairs with
  | nil => intro e h; cases h
  | cons pr rest ih =>
    obtain ⟨a, b⟩ := pr
    intro e h
    cases hc : env.connect_ok a b with
    | true =>
      simp only [connectSeq, hc, if_true] at h
      obtain ⟨src, dst, h1, h2, h3⟩ := ih e h
      exact ⟨src, dst, h1, h2, by simp [h3]⟩
    | false =>
      simp only [connectSeq, hc, Bool.false_eq_true, if_false] at h
      cases h
      exact ⟨a, b, rfl, hc, by simp⟩

/-- C1 (amended): after the client is activated, a failure to auto-connect any
client port to its configured system port makes `spawn_rt_thread` fail: the
connection error (the first refused pair, in declaration order) is
propagated through the source's `?` operator and returned as `Err`, the
stream handle is dropped during unwinding, and no client ports remain
registered after the call returns. -/
theorem spawn_connect_failure_fails (env : JackEnv) (config : Config)
    (ucn : Option String) (n : Negotiated) (e : SpawnRtThreadError)
    (hneg : negotiate (ucn.getD defaultClientName) env config = .ok n)
    (hconn : connectSeq env (connectPairs n) = .error e) :
    spawn_rt_thread (some env) config ucn = .error e ∧
    (∃ src dst, e = .PlatformSpecific (.connectFailed src dst) ∧
      env.connect_ok src dst = false ∧ (src, dst) ∈ connectPairs n) ∧
    registeredPortsAfter (spawn_rt_thread (some env) config ucn) = [] := by
  have hs : spawn_rt_thread (some env) config ucn = .error e := by
    simp [spawn_rt_thread, hneg, hconn]
  exact ⟨hs, connectSeq_error_elim env (connectPairs n) e hconn, by rw [hs]; rfl⟩

/-- Concrete input bus bound to the conventional capture port. -/
def micBusC1 : AudioBusConfig := { id := "mic", system_ports := [systemCapture1] }

/-- Concrete configuration with a single connectable input bus. -/
def cfgC1 : Config :=
  { audio_in_busses := [micBusC1]
    audio_out_busses := []
    midi_in_controllers := []
    midi_out_controllers := []
    midi_server := none }

/-- Concrete reachable server that refuses every connection request. -/
def envC1 : JackEnv :=
  { system_audio_in_ports := [systemCapture1]
    system_audio_out_ports := []
    sample_rate := 48000
    buffer_size := 512
    connect_ok := fun _ _ => false }

/-- Full name of the single client port registered for `cfgC1`. -/
def micPortName : String := "rusty-daw-io:mic_1"

/-- The negotiation result for `cfgC1` on `envC1`. -/
def nC1 : Negotiated :=
  { audio_in_busses := [{ id_name := "mic"
                          id_index := 0
                          system_device := jackName
                          system_half_duplex_device := none
                          system_ports := [systemCapture1]
                          channels := 1 }]
    audio_in_port_names := [micPortName]
    audio_in_connected_port_names := [systemCapture1]
    audio_out_busses := []
    audio_out_port_names := []
    audio_out_connected_port_names := []
    midi_in_controllers := []
    midi_in_port_names := []
    midi_in_connected_port_names := []
    midi_out_controllers := []
    midi_out_port_names := []
    midi_out_connected_port_names := [] }

/-- Witness for C1 at a concrete spawn whose single auto-connection fails. -/
theorem spawn_connect_failure_fails_witness :
    spawn_rt_thread (some envC1) cfgC1 none
      = .error (.PlatformSpecific (.connectFailed systemCapture1 micPortName)) ∧
    (∃ src dst,
      SpawnRtThreadError.PlatformSpecific (.connectFailed systemCapture1 micPortName)
        = .PlatformSpecific (.connectFailed src dst) ∧
      envC1.connect_ok src dst = false ∧ (src, dst) ∈ connectPairs nC1) ∧
    registeredPortsAfter (spawn_rt_thread (some envC1) cfgC1 none) = [] :=
  spawn_connect_failure_fails envC1 cfgC1 none nC1
    (.PlatformSpecific (.connectFailed systemCapture1 micPortName)) (by rfl) (by rfl)

/-- Counterexample to C1 as stated: on this concrete spawn the single
auto-connection fails, and `spawn_rt_thread` returns an error — not `Ok`
with the `StreamInfo` — and afterwards no client ports remain registered. -/
theorem spawn_connect_failure_cex :
    spawn_rt_thread (some envC1) cfgC1 none
      = .error (.PlatformSpecific (.connectFailed systemCapture1 micPortName)) ∧
    registeredPortsAfter (spawn_rt_thread (some envC1) cfgC1 none) = [] := by
  exact ⟨rfl, rfl⟩

lemma registerBusses_ok_elim (client_name : String) (catalog : List String) :
    ∀ (busses : List AudioBusConfig) (k : Nat) (bl : List AudioBus)
      (names conns : List String),
      registerBusses client_name catalog busses k = .ok (bl, names, conns) →
      bl.length = busses.length ∧
      names.length = (busses.map (fun b => b.system_ports.length)).sum ∧
      ∀ j (hj : j < bl.length) (hj2 : j < busses.length),
        (bl.get ⟨j, hj⟩).id_name = (busses.get ⟨j, hj2⟩).id ∧
        (bl.get ⟨j, hj⟩).id_index = k + j ∧
        (bl.get ⟨j, hj⟩).system_ports = (busses.get ⟨j, hj2⟩).system_ports ∧
        (bl.get ⟨j, hj⟩).channels
          = (busses.get ⟨j, hj2⟩).system_ports.length % 65536 ∧
        (busses.get ⟨j, hj2⟩).system_ports.length ≠ 0 := by
  intro busses
  induction busses with
  | nil =>
    intro k bl names conns h
    simp only [registerBusses] at h
    cases h
    refine ⟨rfl, rfl, ?_⟩
    intro j hj hj2
    simp at hj
  | cons bus rest ih =>
    intro k bl names conns h
    by_cases hl : bus.system_ports.length = 0
    · simp only [registerBusses] at h
      rw [if_pos hl] at h
      cases h
    · simp only [registerBusses] at h
      rw [if_neg hl] at h
      cases hreg : registerBusPorts client_name bus.id catalog bus.system_ports 0 with
      | error e => rw [hreg] at h; cases h
      | ok pair =>
        rw [hreg] at h
        obtain ⟨ns1, cs1⟩ := pair
        cases hrec : registerBusses client_name catalog rest (k + 1) with
        | error e => rw [hrec] at h; cases h
        | ok triple =>
          rw [hrec] at h
          obtain ⟨bl2, ns2, cs2⟩ := triple
          cases h
          obtain ⟨hlen1, hports⟩ :=
            registerBusPorts_ok_elim client_name bus.id catalog bus.system_ports 0 ns1 cs1 hreg
          obtain ⟨ihlen, ihnames, ihget⟩ := ih (k + 1) bl2 ns2 cs2 hrec
          refine ⟨by simp [ihlen], by simp [hlen1, ihnames], ?_⟩
          intro j hj hj2
          cases j with
          | zero => exact ⟨rfl, rfl, rfl, rfl, hl⟩
          | succ j =>
            have hj' : j < bl2.length := by simpa using hj
            have hj2' : j < rest.length := by simpa using hj2
            obtain ⟨h1, h2, h3, h4, h5⟩ := ihget j hj' hj2'
            have harith : k + 1 + j = k + (j + 1) := by omega
            exact ⟨h1, harith ▸ h2, h3, h4, h5⟩

/-- Elimination form of `negotiate`: a successful negotiation is exactly a
successful bus registration in each direction, with the fields wired
through. -/
lemma negotiate_ok_elim (client_name : String) (env : JackEnv) (config : Config)
    (n : Negotiated) (h : negotiate client_name env config = .ok n) :
    registerBusses client_name env.system_audio_in_ports config.audio_in_busses 0
      = .ok (n.audio_in_busses, n.audio_in_port_names, n.audio_in_connected_port_names) ∧
    registerBusses client_name env.system_audio_out_ports config.audio_out_busses 0
      = .ok (n.audio_out_busses, n.audio_out_port_names, n.audio_out_connected_port_names) := by
  unfold negotiate at h
  cases hin : registerBusses client_name env.system_audio_in_ports config.audio_in_busses 0 with
  | error e => rw [hin] at h; cases h
  | ok tin =>
    rw [hin] at h
    obtain ⟨inB, inN, inC⟩ := tin
    cases hout : registerBusses client_name env.system_audio_out_ports
        config.audio_out_busses 0 with
    | error e => rw [hout] at h; cases h
    | ok tout =>
      rw [hout] at h
      obtain ⟨outB, outN, outC⟩ := tout
      cases h
      exact ⟨rfl, rfl⟩

/-- Elimination form of `spawn_rt_thread`: a successful spawn is exactly a
successful negotiation followed by a successful connection sequence. -/
lemma spawn_ok_elim (env : JackEnv) (config : Config) (ucn : Option String)
    (r : SpawnOk) (h : spawn_rt_thread (some env) config ucn = .ok r) :
    ∃ n, negotiate (ucn.getD defaultClientName) env config = .ok n ∧
      connectSeq env (connectPairs n) = .ok () ∧
      r = { stream_info := n.streamInfo env
            audio_in_port_names := n.audio_in_port_names
            audio_out_port_names := n.audio_out_port_names
            midi_in_port_names := n.midi_in_port_names
            midi_out_port_names := n.midi_out_port_names } := by
  cases hneg : negotiate (ucn.getD defaultClientName) env config with
  | error e =>
    have hs : spawn_rt_thread (some env) config ucn = .error e := by
      simp [spawn_rt_thread, hneg]
    rw [hs] at h
    cases h
  | ok n =>
    cases hcs : connectSeq env (connectPairs n) with
    | error e =>
      have hs : spawn_rt_thread (some env) config ucn = .error e := by
        simp [spawn_rt_thread, hneg, hcs]
      rw [hs] at h
      cases h
    | ok u =>
      obtain ⟨⟩ := u
      have hs : spawn_rt_thread (some env) config ucn = .ok
          { stream_info := n.streamInfo env
            audio_in_port_names := n.audio_in_port_names
            audio_out_port_names := n.audio_out_port_names
            midi_in_port_names := n.midi_in_port_names
            midi_out_port_names := n.midi_out_port_names } := by
        simp [spawn_rt_thread, hneg, hcs]
      rw [hs] at h
      cases h
      exact ⟨n, rfl, hcs, rfl⟩

/-- C10 (amended): for every successful spawn, each returned `AudioBus` has a
nonempty bound system-port list taken from the configuration, a positional
index equal to its position in that direction's bus list, and a channel
count equal to the length of its bound system-port list reduced modulo
`2 ^ 16` (the source stores it as `len as u16`) — hence equal to the length
and strictly positive whenever the bus binds fewer than `65536` ports — and
the number of registered client audio ports per direction equals the sum of
the configured system-port-list lengths of that direction's buses. -/
theorem spawn_ok_bus_invariants (env : JackEnv) (config : Config) (ucn : Option String)
    (r : SpawnOk) (h : spawn_rt_thread (some env) config ucn = .ok r) :
    r.stream_info.audio_in.length = config.audio_in_busses.length ∧
    r.stream_info.audio_out.length = config.audio_out_busses.length ∧
    r.audio_in_port_names.length
      = (config.audio_in_busses.map (fun b => b.system_ports.length)).sum ∧
    r.audio_out_port_names.length
      = (config.audio_out_busses.map (fun b => b.system_ports.length)).sum ∧
    (∀ j (hj : j < r.stream_info.audio_in.length),
      (r.stream_info.audio_in.get ⟨j, hj⟩).id_index = j ∧
      (r.stream_info.audio_in.get ⟨j, hj⟩).system_ports ≠ [] ∧
      (r.stream_info.audio_in.get ⟨j, hj⟩).channels
        = (r.stream_info.audio_in.get ⟨j, hj⟩).system_ports.length % 65536 ∧
      ((r.stream_info.audio_in.get ⟨j, hj⟩).system_ports.length < 65536 →
        (r.stream_info.audio_in.get ⟨j, hj⟩).channels
          = (r.stream_info.audio_in.get ⟨j, hj⟩).system_ports.length ∧
        0 < (r.stream_info.audio_in.get ⟨j, hj⟩).channels)) ∧
    (∀ j (hj : j < r.stream_info.audio_out.length),
      (r.stream_info.audio_out.get ⟨j, hj⟩).id_index = j ∧
      (r.stream_info.audio_out.get ⟨j, hj⟩).system_ports ≠ [] ∧
      (r.stream_info.audio_out.get ⟨j, hj⟩).channels
        = (r.stream_info.audio_out.get ⟨j, hj⟩).system_ports.length % 65536 ∧
      ((r.stream_info.audio_out.get ⟨j, hj⟩).system_ports.length < 65536 →
        (r.stream_info.audio_out.get ⟨j, hj⟩).channels
          = (r.stream_info.audio_out.get ⟨j, hj⟩).system_ports.length ∧
        0 < (r.stream_info.audio_out.get ⟨j, hj⟩).channels)) := by
  obtain ⟨n, hneg, hcs, hr⟩ := spawn_ok_elim env config ucn r h
  obtain ⟨hin, hout⟩ := negotiate_ok_elim (ucn.getD defaultClientName) env config n hneg
  obtain ⟨hinLen, hinNames, hinGet⟩ := registerBusses_ok_elim (ucn.getD defaultClientName)
    env.system_audio_in_ports config.audio_in_busses 0 n.audio_in_busses
    n.audio_in_port_names n.audio_in_connected_port_names hin
  obtain ⟨houtLen, houtNames, houtGet⟩ := registerBusses_ok_elim (ucn.getD defaultClientName)
    env.system_audio_out_ports config.audio_out_busses 0 n.audio_out_busses
    n.audio_out_port_names n.audio_out_connected_port_names hout
  subst hr
  dsimp only [Negotiated.streamInfo]
  refine ⟨hinLen, houtLen, hinNames, houtNames, ?_, ?_⟩
  · intro j hj
    have hj2 : j < config.audio_in_busses.length := by rw [← hinLen]; exact hj
    obtain ⟨h1, h2, h3, h4, h5⟩ := hinGet j hj hj2
    have hports : (n.audio_in_busses.get ⟨j, hj⟩).system_ports.length
        = (config.audio_in_busses.get ⟨j, hj2⟩).system_ports.length := by rw [h3]
    refine ⟨by rw [h2]; omega, ?_, ?_, ?_⟩
    · intro hnil
      rw [hnil] at hports
      exact h5 hports.symm
    · rw [h4, hports]
    · intro hlt
      have hlt2 : (config.audio_in_busses.get ⟨j, hj2⟩).system_ports.length < 65536 := by
        rw [← hports]; exact hlt
      constructor
      · rw [h4, hports, Nat.mod_eq_of_lt hlt2]
      · rw [h4, Nat.mod_eq_of_lt hlt2]
        omega
  · intro j hj
    have hj2 : j < config.audio_out_busses.length := by rw [← houtLen]; exact hj
    obtain ⟨h1, h2, h3, h4, h5⟩ := houtGet j hj hj2
    have hports : (n.audio_out_busses.get ⟨j, hj⟩).system_ports.length
        = (config.audio_out_busses.get ⟨j, hj2⟩).system_ports.length := by rw [h3]
    refine ⟨by rw [h2]; omega, ?_, ?_, ?_⟩
    · intro hnil
      rw [hnil] at hports
      exact h5 hports.symm
    · rw [h4, hports]
    · intro hlt
      have hlt2 : (config.audio_out_busses.get ⟨j, hj2⟩).system_ports.length < 65536 := by
        rw [← hports]; exact hlt
      constructor
      · rw [h4, hports, Nat.mod_eq_of_lt hlt2]
      · rw [h4, Nat.mod_eq_of_lt hlt2]
        omega

/-- Concrete configuration with one input bus and one stereo output bus. -/
def cfgC10w : Config :=
  { audio_in_busses := [{ id := "mic", system_ports := [systemCapture1] }]
    audio_out_busses := [{ id := "spk", system_ports := [systemPlayback1, systemPlayback2] }]
    midi_in_controllers := []
    midi_out_controllers := []
    midi_server := none }

/-- Concrete reachable server accepting every connection, for the C10
witness. -/
def envC10w : JackEnv :=
  { system_audio_in_ports := [systemCapture1]
    system_audio_out_ports := [systemPlayback1, systemPlayback2]
    sample_rate := 44100
    buffer_size := 256
    connect_ok := fun _ _ => true }

/-- The successful spawn result for `cfgC10w` on `envC10w`. -/
def rC10w : SpawnOk :=
  { stream_info :=
      { server_name := jackName
        audio_in := [{ id_name := "mic"
                       id_index := 0
                       system_device := jackName
                       system_half_duplex_device := none
                       system_ports := [systemCapture1]
                       channels := 1 }]
        audio_out := [{ id_name := "spk"
                        id_index := 0
                        system_device := jackName
                        system_half_duplex_device := none
                        system_ports := [systemPlayback1, systemPlayback2]
                        channels := 2 }]
        midi_in := []
        midi_out := []
        sample_rate := 44100
        max_audio_buffer_size := 256 }
    audio_in_port_names := ["rusty-daw-io:mic_1"]
    audio_out_port_names := ["rusty-daw-io:spk_1", "rusty-daw-io:spk_2"]
    midi_in_port_names := []
    midi_out_port_names := [] }

/-- Witness for C10 at a concrete successful spawn. -/
theorem spawn_ok_bus_invariants_witness :
    spawn_rt_thread (some envC10w) cfgC10w none = .ok rC10w ∧
    rC10w.stream_info.audio_in.length = cfgC10w.audio_in_busses.length ∧
    rC10w.audio_out_port_names.length
      = (cfgC10w.audio_out_busses.map (fun b => b.system_ports.length)).sum :=
  ⟨by rfl, (spawn_ok_bus_invariants envC10w cfgC10w none rC10w (by rfl)).1,
    (spawn_ok_bus_invariants envC10w cfgC10w none rC10w (by rfl)).2.2.2.1⟩

lemma registerBusPorts_replicate (client_name bus_id p : String) (catalog : List String)
    (hp : p ∈ catalog) :
    ∀ (n i : Nat), ∃ names,
      registerBusPorts client_name bus_id catalog (List.replicate n p) i
        = .ok (names, List.replicate n p) := by
  intro n
  induction n with
  | zero => intro i; exact ⟨[], rfl⟩
  | succ m ih =>
    intro i
    obtain ⟨names, hm⟩ := ih (i + 1)
    refine ⟨(client_name ++ ":" ++ bus_id ++ "_" ++ toString (i + 1)) :: names, ?_⟩
    simp [List.replicate_succ, registerBusPorts, hp, hm]

lemma connectSeq_all_true (env : JackEnv) (hc : ∀ a b, env.connect_ok a b = true) :
    ∀ (pairs : List (String × String)), connectSeq env pairs = .ok () := by
  intro pairs
  induction pairs with
  | nil => rfl
  | cons pr rest ih =>
    obtain ⟨a, b⟩ := pr
    simp [connectSeq, hc, ih]

/-- Input bus binding 65536 copies of the (existing) system port `p`. -/
def bigBusConfig : AudioBusConfig :=
  { id := "big", system_ports := List.replicate 65536 ("p") }

/-- The `AudioBus` the source builds for `bigBusConfig`: 65536 bound ports
but a `u16` channel count of `65536 % 65536 = 0`. -/
def bigBus : AudioBus :=
  { id_name := "big"
    id_index := 0
    system_device := jackName
    system_half_duplex_device := none
    system_ports := List.replicate 65536 ("p")
    channels := 65536 % 65536 }

/-- Configuration whose single input bus binds 65536 ports. -/
def cfgC10c : Config :=
  { audio_in_busses := [bigBusConfig]
    audio_out_busses := []
    midi_in_controllers := []
    midi_out_controllers := []
    midi_server := none }

/-- Concrete reachable server exposing port `p` and accepting every
connection. -/
def envC10c : JackEnv :=
  { system_audio_in_ports := ["p"]
    system_audio_out_ports := []
    sample_rate := 48000
    buffer_size := 512
    connect_ok := fun _ _ => true }

lemma spawn_of_negotiate_connect_ok (env : JackEnv) (config : Config)
    (ucn : Option String) (n : Negotiated)
    (hneg : negotiate (ucn.getD defaultClientName) env config = .ok n)
    (hconn : connectSeq env (connectPairs n) = .ok ()) :
    spawn_rt_thread (some env) config ucn = .ok
      { stream_info := n.streamInfo env
        audio_in_port_names := n.audio_in_port_names
        audio_out_port_names := n.audio_out_port_names
        midi_in_port_names := n.midi_in_port_names
        midi_out_port_names := n.midi_out_port_names } := by
  simp [spawn_rt_thread, hneg, hconn]

lemma negotiate_of_parts (client_name : String) (env : JackEnv) (config : Config)
    (inB : List AudioBus) (inN inC : List String)
    (outB : List AudioBus) (outN outC : List String)
    (hin : registerBusses client_name env.system_audio_in_ports config.audio_in_busses 0
      = .ok (inB, inN, inC))
    (hout : registerBusses client_name env.system_audio_out_ports config.audio_out_busses 0
      = .ok (outB, outN, outC))
    (hmidi : config.midi_server = none) :
    negotiate client_name env config
      = .ok { audio_in_busses := inB
              audio_in_port_names := inN
              audio_in_connected_port_names := inC
              audio_out_busses := outB
              audio_out_port_names := outN
              audio_out_connected_port_names := outC
              midi_in_controllers := []
              midi_in_port_names := []
              midi_in_connected_port_names := []
              midi_out_controllers := []
              midi_out_port_names := []
              midi_out_connected_port_names := [] } := by
  simp [negotiate, hin, hout, hmidi]

lemma registerBusses_singleton (client_name : String) (catalog : List String)
    (bus : AudioBusConfig) (hl : ¬ bus.system_ports.length = 0)
    (names conns : List String)
    (hreg : registerBusPorts client_name bus.id catalog bus.system_ports 0
      = .ok (names, conns)) :
    registerBusses client_name catalog [bus] 0
      = .ok ([{ id_name := bus.id
                id_index := 0
                system_device := jackName
                system_half_duplex_device := none
                system_ports := bus.system_ports
                channels := bus.system_ports.length % 65536 }],
             names ++ [], conns ++ []) := by
  simp only [registerBusses]
  rw [if_neg hl, hreg]

/-- Counterexample to C10 as stated: this spawn succeeds, its configured bus
binds a system-port list of length 65536, yet the returned bus's channel
count is `0` (the `as u16` cast wraps), not the length of the bound list,
and not strictly positive. -/
theorem spawn_channels_wrap_cex :
    ((spawn_rt_thread (some envC10c) cfgC10c none).map
        (fun r => r.stream_info.audio_in.map (fun b => b.channels))) = .ok [0] ∧
    cfgC10c.audio_in_busses.map (fun b => b.system_ports.length) = [65536] := by
  obtain ⟨names, hreg⟩ := registerBusPorts_replicate defaultClientName ("big") ("p")
    (["p"]) (by decide) 65536 0
  have hin := registerBusses_singleton defaultClientName (["p"]) bigBusConfig
    (by rw [show bigBusConfig.system_ports = List.replicate 65536 ("p") from rfl,
          List.length_replicate]
        omega)
    names (List.replicate 65536 ("p")) hreg
  rw [show ({ id_name := bigBusConfig.id
              id_index := 0
              system_device := jackName
              system_half_duplex_device := none
              system_ports := bigBusConfig.system_ports
              channels := bigBusConfig.system_ports.length % 65536 } : AudioBus)
        = bigBus from by
      simp only [bigBusConfig, bigBus, List.length_replicate]] at hin
  have hneg := negotiate_of_parts defaultClientName envC10c cfgC10c
    [bigBus] (names ++ []) (List.replicate 65536 ("p") ++ []) [] [] [] hin rfl rfl
  have hspawn := spawn_of_negotiate_connect_ok envC10c cfgC10c none _ hneg
    (connectSeq_all_true envC10c (fun a b => rfl) _)
  rw [hspawn]
  constructor
  · simp only [Except.map, Negotiated.streamInfo, List.map, bigBus]
  · simp only [cfgC10c, bigBusConfig, List.map, List.length_replicate]

/-!
Real-Time Bridge: embedding of `JackProcessHandler::process` (lines 435-558)
and the buffer types it uses.

`AudioBusBuffer` and `MidiControllerBuffer` live at the crate root, outside
the provided source file; their constructors and mutators are modelled from
the spec (each such definition says so).  `Vec<f32>` is `SampleVec`: the
element list plus the allocated capacity, so that growth past the
pre-allocated capacity (a reallocation on the real-time path) is an
observable state change.  The application's process handler is a function
from the `ProcessInfo` snapshot it is handed to the output buffers it
leaves behind; logging is modelled by counting the warnings issued.
-/

/-- Model of `Vec<f32>`: elements plus allocated capacity. -/
structure SampleVec where
  cap : Nat
  data : List Int
deriving DecidableEq

/-- Model of `Vec::resize(n, 0.0)`: keep the first `n` elements, zero-fill up
to `n`; when `n` exceeds the capacity the vector reallocates (capacity
becomes at least `n`; modelled as exactly `max cap n`). -/
def SampleVec.resize (v : SampleVec) (n : Nat) : SampleVec :=
  { cap := max v.cap n
    data := v.data.take n ++ List.replicate (n - v.data.length) 0 }

/-- Model of `copy_from_slice`: overwrites the whole vector when the lengths
agree (the source always resizes first, making them agree; on disagreement
Rust would panic, modelled as leaving the vector unchanged — provably
unreachable here). -/
def SampleVec.copy_from_slice (v : SampleVec) (s : List Int) : SampleVec :=
  if v.data.length = s.length then { v with data := s } else v

/-- Modelled from the spec: `AudioBusBuffer` (crate root, not in src) — one
contiguous per-channel sample buffer per channel, each pre-allocated to the
maximum period size, plus the logical frame count. -/
structure AudioBusBuffer where
  channel_buffers : List SampleVec
  frames : Nat
deriving DecidableEq

/-- Modelled from the spec: `AudioBusBuffer::new(channels, max_buffer_size)`
pre-allocates every channel to the maximum period size. -/
def AudioBusBuffer.new (channels max_buffer_size : Nat) : AudioBusBuffer :=
  { channel_buffers :=
      List.replicate channels
        { cap := max_buffer_size, data := List.replicate max_buffer_size 0 }
    frames := max_buffer_size }

/-- Modelled from the spec: `clear_and_resize` zeroes every channel and sets
the logical length to the period's frame count (a logical-length update:
capacity only grows if the frame count exceeds it, which negotiation
prevents). -/
def AudioBusBuffer.clear_and_resize (b : AudioBusBuffer) (frames : Nat) : AudioBusBuffer :=
  { channel_buffers :=
      b.channel_buffers.map
        (fun c => { cap := max c.cap frames, data := List.replicate frames 0 })
    frames := frames }

/-- A raw MIDI event: timestamp relative to the period start plus payload
bytes. -/
structure MidiEvent where
  delta_frames : Nat
  data : List Nat
deriving DecidableEq

/-- Modelled from the spec: fixed capacity of a `MidiControllerBuffer`; the
spec fixes no concrete value, so an arbitrary one is used. -/
def midiControllerBufferCap : Nat := 1024

/-- Modelled from the spec: `MidiControllerBuffer` (crate root, not in src) —
a fixed-capacity, time-ordered sequence of raw MIDI events. -/
structure MidiControllerBuffer where
  cap : Nat
  events : List MidiEvent
deriving DecidableEq

/-- Modelled from the spec: a fresh, empty controller buffer. -/
def MidiControllerBuffer.new : MidiControllerBuffer :=
  { cap := midiControllerBufferCap, events := [] }

/-- Modelled from the spec: clearing drops all buffered events. -/
def MidiControllerBuffer.clear (b : MidiControllerBuffer) : MidiControllerBuffer :=
  { b with events := [] }

/-- Modelled from the spec: `push_raw` appends an event, failing (event
dropped, not fatal) when the buffer is full; the malformed-payload check
depends on types outside src and is not needed by any claim. -/
def MidiControllerBuffer.push_raw (b : MidiControllerBuffer) (time : Nat)
    (bytes : List Nat) : Except String MidiControllerBuffer :=
  if b.events.length < b.cap then
    .ok { b with events := b.events ++ [{ delta_frames := time, data := bytes }] }
  else
    .error "midi buffer is full"

/-- State of `JackProcessHandler` between periods (the fields `process`
reads and writes; the port handles are replaced by the per-period
`PeriodInput`, which lists each port's buffer contents in port order). -/
structure JackProcessState where
  audio_in_buffers : List AudioBusBuffer
  audio_out_buffers : List AudioBusBuffer
  midi_in_buffers : List MidiControllerBuffer
  midi_out_buffers : List MidiControllerBuffer
  sample_rate : Nat
  max_audio_buffer_size : Nat
deriving DecidableEq

/-- Embedding of `JackProcessHandler::new` (lines 389-433): one audio buffer
per bus (pre-allocated to the negotiated maximum) and one controller buffer
per controller. -/
def JackProcessHandler.new (stream_info : StreamInfo) (max_audio_buffer_size : Nat) :
    JackProcessState :=
  { audio_in_buffers :=
      stream_info.audio_in.map (fun bus => AudioBusBuffer.new bus.channels max_audio_buffer_size)
    audio_out_buffers :=
      stream_info.audio_out.map (fun bus => AudioBusBuffer.new bus.channels max_audio_buffer_size)
    midi_in_buffers := stream_info.midi_in.map (fun _ => MidiControllerBuffer.new)
    midi_out_buffers := stream_info.midi_out.map (fun _ => MidiControllerBuffer.new)
    sample_rate := stream_info.sample_rate
    max_audio_buffer_size := max_audio_buffer_size }

/-- What the server hands the callback for one period: the slice of every
audio-in port (in registration order), the slice length of every audio-out
port, and the events delivered on every MIDI-in port. -/
structure PeriodInput where
  audio_in_slices : List (List Int)
  audio_out_lens : List Nat
  midi_in_events : List (List MidiEvent)
deriving DecidableEq

/-- Per-channel step of the input-collection loop (lines 444-457): read the
port slice, record its length as the current frame count, warn when it
exceeds the negotiated maximum, then `resize` and `copy_from_slice`.
Returns the updated channel and whether the oversized-period diagnostic was
logged. -/
def collectOneChannel (max_audio_buffer_size : Nat) (port_slice : List Int)
    (channel : SampleVec) : SampleVec × Bool :=
  let audio_frames := port_slice.length
  let warned := if audio_frames > max_audio_buffer_size then true else false
  ((channel.resize audio_frames).copy_from_slice port_slice, warned)

/-- Channel loop of input collection (lines 443-460): walks the channels of
one bus, consuming ports by a flat, increasing port index; `audio_frames`
is overwritten by each channel's slice length, as in the source.  Returns
the updated channels, the next port index, the final frame count and the
number of warnings. -/
def collectChannels (max_audio_buffer_size : Nat) (slices : List (List Int)) :
    List SampleVec → Nat → Nat → List SampleVec × Nat × Nat × Nat
  | [], port, audio_frames => ([], port, audio_frames, 0)
  | channel :: rest, port, audio_frames =>
    let port_slice := (slices.get? port).getD []
    let (channel2, warned) := collectOneChannel max_audio_buffer_size port_slice channel
    let (rest2, port2, frames2, warns) :=
      collectChannels max_audio_buffer_size slices rest (port + 1) port_slice.length
    (channel2 :: rest2, port2, frames2, (if warned then 1 else 0) + warns)

/-- Buffer loop of input collection (lines 441-463): after each bus's
channels, the bus's `frames` field is set to the current frame count. -/
def collectBuffers (max_audio_buffer_size : Nat) (slices : List (List Int)) :
    List AudioBusBuffer → Nat → Nat → List AudioBusBuffer × Nat × Nat × Nat
  | [], port, audio_frames => ([], port, audio_frames, 0)
  | buf :: rest, port, audio_frames =>
    let (chs, port2, frames2, w1) :=
      collectChannels max_audio_buffer_size slices buf.channel_buffers port audio_frames
    let (rest2, port3, frames3, w2) :=
      collectBuffers max_audio_buffer_size slices rest port2 frames2
    ({ channel_buffers := chs, frames := frames2 } :: rest2, port3, frames3, w1 + w2)

/-- One MIDI-in controller (lines 480-495): clear, then push every delivered
event in order, dropping (and counting a warning for) each failed push. -/
def collectMidiOne (buf : MidiControllerBuffer) (events : List MidiEvent) :
    MidiControllerBuffer × Nat :=
  events.foldl
    (fun acc e =>
      match acc.1.push_raw e.delta_frames e.data with
      | .ok b2 => (b2, acc.2)
      | .error _ => (acc.1, acc.2 + 1))
    (buf.clear, 0)

/-- MIDI-in collection over the zip of buffers and ports, as in the source. -/
def collectMidi (bufs : List MidiControllerBuffer) (events : List (List MidiEvent)) :
    List MidiControllerBuffer × Nat :=
  let stepped := (bufs.zip events).map (fun pr => collectMidiOne pr.1 pr.2)
  (stepped.map (fun pr => pr.1), (stepped.map (fun pr => pr.2)).sum)

/-- The `ProcessInfo` handed to the application's process function
(lines 503-512): the state of every buffer at the moment of invocation,
the period's frame count and the sample rate. -/
structure ProcessInfo where
  audio_in : List AudioBusBuffer
  audio_out : List AudioBusBuffer
  audio_frames : Nat
  midi_in : List MidiControllerBuffer
  midi_out : List MidiControllerBuffer
  sample_rate : Nat
deriving DecidableEq

/-- What the application's process function leaves in the mutable halves of
the context. -/
structure UserOutput where
  audio_out : List AudioBusBuffer
  midi_out : List MidiControllerBuffer
deriving DecidableEq

/-- Channel loop of the output copy (lines 518-536): per channel, write
`min (buffer length) (port length)` samples to the port (recorded as the
written prefix), warning when that differs from the period's frame count. -/
def copyChannelsOut (audio_frames : Nat) (out_lens : List Nat) :
    List SampleVec → Nat → List (List Int) × Nat × Nat
  | [], port => ([], port, 0)
  | channel :: rest, port =>
    let port_len := (out_lens.get? port).getD 0
    let len := min channel.data.length port_len
    let warn := if len = audio_frames then 0 else 1
    let (ws, port2, warns) := copyChannelsOut audio_frames out_lens rest (port + 1)
    (channel.data.take len :: ws, port2, warn + warns)

/-- Buffer loop of the output copy. -/
def copyBuffersOut (audio_frames : Nat) (out_lens : List Nat) :
    List AudioBusBuffer → Nat → List (List Int) × Nat × Nat
  | [], port => ([], port, 0)
  | buf :: rest, port =>
    let (ws1, port2, w1) := copyChannelsOut audio_frames out_lens buf.channel_buffers port
    let (ws2, port3, w2) := copyBuffersOut audio_frames out_lens rest port2
    (ws1 ++ ws2, port3, w1 + w2)

/-- The control value the callback returns to the server. -/
inductive Control where
  | Continue : Control
deriving DecidableEq

/-- Observable outcome of one period: the buffer state handed to the process
function, the samples and events written to the server's output ports, the
diagnostics counts, and the control value returned to the server. -/
structure PeriodOutput where
  snapshot : ProcessInfo
  audio_out_writes : List (List Int)
  midi_out_writes : List (List MidiEvent)
  input_warnings : Nat
  output_warnings : Nat
  midi_drops : Nat
  control : Control
deriving DecidableEq

/-- Embedding of `JackProcessHandler::process` (lines 436-558) for one
period: collect audio inputs (flat port counter), determine the frame count
from the first output port when there are no input buffers, clear and
resize every output bus buffer, collect MIDI inputs (dropping events whose
push fails), clear every MIDI-out buffer, invoke the user's process
function once on the resulting snapshot, copy its output buffers to the
output ports and its MIDI events to the MIDI-out ports, and return
`Continue` unconditionally. -/
def jackProcess (user : ProcessInfo → UserOutput) (st : JackProcessState)
    (ps : PeriodInput) : JackProcessState × PeriodOutput :=
  let collected := collectBuffers st.max_audio_buffer_size ps.audio_in_slices
    st.audio_in_buffers 0 0
  let inBufs := collected.1
  let framesCollected := collected.2.2.1
  let inWarns := collected.2.2.2
  let audio_frames :=
    if st.audio_in_buffers.length = 0 then (ps.audio_out_lens.head?).getD framesCollected
    else framesCollected
  let outBufs := st.audio_out_buffers.map (fun b => b.clear_and_resize audio_frames)
  let collectedMidi := collectMidi st.midi_in_buffers ps.midi_in_events
  let midiInBufs := collectedMidi.1
  let midiDrops := collectedMidi.2
  let midiOutBufs := st.midi_out_buffers.map MidiControllerBuffer.clear
  let snapshot : ProcessInfo :=
    { audio_in := inBufs
      audio_out := outBufs
      audio_frames := audio_frames
      midi_in := midiInBufs
      midi_out := midiOutBufs
      sample_rate := st.sample_rate }
  let uo := user snapshot
  let copied := copyBuffersOut audio_frames ps.audio_out_lens uo.audio_out 0
  let midiWrites := uo.midi_out.map (fun b => b.events)
  ({ st with
      audio_in_buffers := inBufs
      audio_out_buffers := uo.audio_out
      midi_in_buffers := midiInBufs
      midi_out_buffers := uo.midi_out },
   { snapshot := snapshot
     audio_out_writes := copied.1
     midi_out_writes := midiWrites
     input_warnings := inWarns
     output_warnings := copied.2.2
     midi_drops := midiDrops
     control := Control.Continue })

lemma SampleVec.resize_length (v : SampleVec) (n : Nat) :
    (v.resize n).data.length = n := by
  simp [SampleVec.resize]
  omega

/-- C2 (amended): in the per-period callback, when the server reports a frame
count greater than the negotiated maximum for an input channel, the
oversized-period diagnostic is logged, but the channel buffer is resized to
the full reported frame count and all reported samples are copied in — the
buffer's capacity grows to the reported count, past the pre-allocated
capacity whenever the count exceeds it (a reallocation on the real-time
path).  `collectOneChannel` is the per-channel step `jackProcess` applies
to every input-bus channel. -/
theorem oversized_period_copies_all (max_audio_buffer_size : Nat)
    (port_slice : List Int) (channel : SampleVec)
    (h : port_slice.length > max_audio_buffer_size) :
    (collectOneChannel max_audio_buffer_size port_slice channel).2 = true ∧
    ((collectOneChannel max_audio_buffer_size port_slice channel).1).data = port_slice ∧
    ((collectOneChannel max_audio_buffer_size port_slice channel).1).cap
      = max channel.cap port_slice.length := by
  unfold collectOneChannel
  refine ⟨by simp [h], ?_, ?_⟩
  · show ((channel.resize port_slice.length).copy_from_slice port_slice).data = port_slice
    rw [SampleVec.copy_from_slice, if_pos (by rw [SampleVec.resize_length])]
  · show ((channel.resize port_slice.length).copy_from_slice port_slice).cap
      = max channel.cap port_slice.length
    rw [SampleVec.copy_from_slice, if_pos (by rw [SampleVec.resize_length])]
    rfl

/-- Concrete channel buffer pre-allocated for two frames. -/
def chC2 : SampleVec := { cap := 2, data := [0, 0] }

/-- Concrete oversized port slice of three frames. -/
def sliceC2 : List Int := [5, 6, 7]

/-- Witness for C2 (amended) at a concrete oversized period. -/
theorem oversized_period_copies_all_witness :
    sliceC2.length > 2 ∧
    ((collectOneChannel 2 sliceC2 chC2).2 = true ∧
      ((collectOneChannel 2 sliceC2 chC2).1).data = sliceC2 ∧
      ((collectOneChannel 2 sliceC2 chC2).1).cap = max chC2.cap sliceC2.length) :=
  ⟨by decide, oversized_period_copies_all 2 sliceC2 chC2 (by decide)⟩

/-- The application process handler that leaves the output buffers exactly as
handed to it. -/
def userKeep : ProcessInfo → UserOutput :=
  fun s => { audio_out := s.audio_out, midi_out := s.midi_out }

/-- Concrete callback state: one input bus with one channel pre-allocated to
the negotiated maximum of 2 frames. -/
def stC2 : JackProcessState :=
  { audio_in_buffers := [{ channel_buffers := [chC2], frames := 2 }]
    audio_out_buffers := []
    midi_in_buffers := []
    midi_out_buffers := []
    sample_rate := 44100
    max_audio_buffer_size := 2 }

/-- Concrete period in which the server reports 3 frames against a negotiated
maximum of 2. -/
def psC2 : PeriodInput :=
  { audio_in_slices := [sliceC2]
    audio_out_lens := []
    midi_in_events := [] }

/-- Counterexample to C2 as stated: on this period the server reports 3
frames against a negotiated maximum (and pre-allocated capacity) of 2; the
diagnostic is logged, but the callback resizes the channel buffer to 3
frames — its capacity grows from 2 to 3 and all 3 samples are copied,
writing and growing past the pre-allocated capacity. -/
theorem oversized_period_grows_buffer_cex :
    (jackProcess userKeep stC2 psC2).1.audio_in_buffers
      = [{ channel_buffers := [{ cap := 3, data := [5, 6, 7] }], frames := 3 }] ∧
    (jackProcess userKeep stC2 psC2).2.input_warnings = 1 ∧
    stC2.max_audio_buffer_size = 2 ∧
    chC2.cap = 2 := by
  refine ⟨by decide, by decide, rfl, rfl⟩

/-- C9: on every period, the `ProcessInfo` snapshot handed to the
application's process function has every output bus buffer cleared to zeros
and logically resized to the period's frame count, and every MIDI-out
controller buffer empty — regardless of what the previous period's
application code left in the state. -/
theorem outputs_cleared_before_process (user : ProcessInfo → UserOutput)
    (st : JackProcessState) (ps : PeriodInput) :
    (∀ b ∈ ((jackProcess user st ps).2).snapshot.audio_out,
      b.frames = ((jackProcess user st ps).2).snapshot.audio_frames ∧
      ∀ c ∈ b.channel_buffers,
        c.data = List.replicate (((jackProcess user st ps).2).snapshot.audio_frames) 0) ∧
    (∀ m ∈ ((jackProcess user st ps).2).snapshot.midi_out, m.events = []) := by
  have hout : ((jackProcess user st ps).2).snapshot.audio_out
      = st.audio_out_buffers.map
          (fun b => b.clear_and_resize (((jackProcess user st ps).2).snapshot.audio_frames)) :=
    rfl
  have hmid : ((jackProcess user st ps).2).snapshot.midi_out
      = st.midi_out_buffers.map MidiControllerBuffer.clear := rfl
  constructor
  · intro b hb
    rw [hout] at hb
    obtain ⟨a, ha, rfl⟩ := List.mem_map.mp hb
    refine ⟨rfl, ?_⟩
    intro c hc
    simp only [AudioBusBuffer.clear_and_resize] at hc
    obtain ⟨c0, hc0, rfl⟩ := List.mem_map.mp hc
    rfl
  · intro m hm
    rw [hmid] at hm
    obtain ⟨a, ha, rfl⟩ := List.mem_map.mp hm
    rfl

/-- Concrete callback state holding junk from a previous period in both the
output bus buffer and the MIDI-out buffer. -/
def stC9 : JackProcessState :=
  { audio_in_buffers := [{ channel_buffers := [{ cap := 4, data := [9, 9] }], frames := 2 }]
    audio_out_buffers := [{ channel_buffers := [{ cap := 4, data := [7, 7, 7] }], frames := 3 }]
    midi_in_buffers := []
    midi_out_buffers := [{ cap := 8, events := [{ delta_frames := 0, data := [144] }] }]
    sample_rate := 44100
    max_audio_buffer_size := 4 }

/-- Concrete two-frame period for the C9 witness. -/
def psC9 : PeriodInput :=
  { audio_in_slices := [[1, 2]]
    audio_out_lens := [2]
    midi_in_events := [] }

/-- The output bus buffer as it must look at process-function invocation for
`stC9` and `psC9`: zeroed and logically resized to 2 frames. -/
def clearedBusC9 : AudioBusBuffer :=
  { channel_buffers := [{ cap := 4, data := List.replicate 2 0 }], frames := 2 }

/-- Witness for C9 at a concrete period over junk-filled previous state. -/
theorem outputs_cleared_before_process_witness :
    clearedBusC9 ∈ ((jackProcess userKeep stC9 psC9).2).snapshot.audio_out ∧
    clearedBusC9.frames = ((jackProcess userKeep stC9 psC9).2).snapshot.audio_frames :=
  ⟨by decide,
    ((outputs_cleared_before_process userKeep stC9 psC9).1 clearedBusC9 (by decide)).1⟩

/-!
Lifecycle Notifier: embedding of `JackNotificationHandler` (lines 561-663).
-/

/-- Mirror of the crate's `FatalStreamError` (the variant this backend
produces). -/
inductive FatalStreamError where
  | AudioServerDisconnected (msg : String) : FatalStreamError
deriving DecidableEq

/-- The description built at lines 571-574 from the server's reported status
(Debug-formatted upstream, taken here as a string) and reason string. -/
def shutdownMsg (status reason : String) : String :=
  "JACK: shutdown with status " ++ status ++ " because \"" ++ reason ++ "\""

/-- Mirror of the crate's `JackNotificationHandler`: the armed state holds
`some` handler — exactly how `spawn_rt_thread` installs it at lines
317-320 — and the fired state holds `none`. -/
structure JackNotificationHandler (E : Type) where
  fatal_error_handler : Option E

/-- Embedding of the `shutdown` notification (lines 570-581): `take` the
armed handler if still present and invoke it (the invocation is the emitted
pair of handler and error); when already consumed, do nothing. -/
def JackNotificationHandler.shutdown {E : Type} (h : JackNotificationHandler E)
    (status reason : String) :
    JackNotificationHandler E × Option (E × FatalStreamError) :=
  match h.fatal_error_handler with
  | some handler =>
    ({ fatal_error_handler := none },
     some (handler, .AudioServerDisconnected (shutdownMsg status reason)))
  | none => (h, none)

/-- A whole stream lifetime of shutdown notifications, in order, collecting
every handler invocation. -/
def runShutdowns {E : Type} (h : JackNotificationHandler E) :
    List (String × String) → JackNotificationHandler E × List (E × FatalStreamError)
  | [] => (h, [])
  | (status, reason) :: rest =>
    let step := h.shutdown status reason
    let next := runShutdowns step.1 rest
    (next.1, step.2.toList ++ next.2)

lemma runShutdowns_consumed {E : Type} :
    ∀ evts : List (String × String),
      runShutdowns ({ fatal_error_handler := none } : JackNotificationHandler E) evts
        = ({ fatal_error_handler := none }, []) := by
  intro evts
  induction evts with
  | nil => rfl
  | cons e rest ih =>
    obtain ⟨status, reason⟩ := e
    simp [runShutdowns, JackNotificationHandler.shutdown, ih]

/-- C3: over any sequence of shutdown notifications delivered to the armed
handler installed at spawn, the fatal-error handler is invoked exactly on
the first notification — with a description combining that notification's
status and reason — every later notification is a no-op, at most one
invocation ever happens, and the handler is consumed by the first
notification. -/
theorem fatal_handler_fires_at_most_once {E : Type} (handler : E)
    (events : List (String × String)) :
    (runShutdowns { fatal_error_handler := some handler } events).2
      = (match events with
         | [] => []
         | (status, reason) :: _ =>
           [(handler, FatalStreamError.AudioServerDisconnected (shutdownMsg status reason))]) ∧
    ((runShutdowns { fatal_error_handler := some handler } events).2).length ≤ 1 ∧
    (runShutdowns { fatal_error_handler := some handler } events).1.fatal_error_handler
      = (if events.isEmpty then some handler else none) := by
  cases events with
  | nil => exact ⟨rfl, by simp [runShutdowns], rfl⟩
  | cons e rest =>
    obtain ⟨status, reason⟩ := e
    refine ⟨?_, ?_, ?_⟩
    · simp [runShutdowns, JackNotificationHandler.shutdown, runShutdowns_consumed]
    · simp [runShutdowns, JackNotificationHandler.shutdown, runShutdowns_consumed]
    · simp [runShutdowns, JackNotificationHandler.shutdown, runShutdowns_consumed]
